import Mathlib

/-!
Verification of the healthcare-chatbot-ui repository.

The repository holds two browser front-ends for a symptom-to-disease chat
assistant: `src/app_gradio.py` and `src/app_streamlit.py`.  Both talk to an
external prediction service over HTTP (`GET {base}/health`,
`POST {base}/predict`) through the `requests` library.

This file gives a shallow embedding of the two apps.  The HTTP layer is
modelled by oracles: a health oracle `String → HealthOutcome` maps the URL of
a GET request to its outcome, and a predict oracle
`PredictRequest → PostOutcome` maps the POST request (URL plus JSON body) to
its outcome.  An outcome is either a completed response (status code, and for
`/predict` an optional decoded body, `none` meaning the body was not valid
JSON) or a raised exception.  Per the `requests` library contract, every
exception the library raises inherits from `requests.exceptions.RequestException`
(and since requests 2.27 this includes the JSON decoding error raised by
`Response.json()`), which the embedding records in the
`is_request_exception` flag of a raised `Exn`.

JSON numbers are modelled as integers (`JVal.num`); no claim depends on the
numeric value of a probability, only on its presence.  Wall-clock values
(`datetime.utcnow()`) are passed in as an explicit `now : String` parameter.
-/

/-- Outcome of a single `requests.get(url, timeout=2)` health call: either a
completed HTTP response with its status code, or a raised exception whose
class name is recorded (e.g. `ConnectionError`, `Timeout`, `MissingSchema`). -/
inductive HealthOutcome where
  | resp (status : Nat)
  | exn (ename : String)
deriving DecidableEq, Repr

/-- A JSON value as it appears inside a decoded `/predict` response entry.
Numbers are modelled as integers; no claim inspects their numeric value. -/
inductive JVal where
  | str (s : String)
  | num (n : Int)
  | null
deriving DecidableEq, Repr

/-- One element of the `predictions` array of a `/predict` response: a JSON
object, modelled as an association list from field name to value (fields may
be missing, extra fields may be present). -/
structure PredEntry where
  fields : List (String × JVal)
deriving DecidableEq, Repr

/-- A decoded `/predict` JSON response.  Each field is optional: `none`
models a key that is absent from the JSON object (or bound to `null`, which
the apps treat identically through `data.get(k, d)` / `or []`). -/
structure PredictData where
  primary_disease : Option String
  found_symptoms : Option (List String)
  predictions : Option (List PredEntry)
  specialist : Option String
  precautions : Option (List String)
  typical_symptoms : Option (List String)
deriving DecidableEq, Repr

/-- The POST request both apps issue: the target URL and the JSON payload
`{"text": ..., "top_k": ...}` (exactly these two fields). -/
structure PredictRequest where
  url : String
  text : String
  top_k : Int
deriving DecidableEq, Repr

/-- Outcome of a single `requests.post(url, json=payload, timeout=20)` call:
a completed response (status code and optional decoded JSON body, `none`
meaning the body is not valid JSON), or a raised exception (class name and
`str(e)` text). -/
inductive PostOutcome where
  | resp (status : Nat) (body : Option PredictData)
  | exn (ename : String) (etext : String)
deriving DecidableEq, Repr

/-- A Python exception as the apps observe it: class name, whether it is an
instance of `requests.exceptions.RequestException`, and its `str(e)` text. -/
structure Exn where
  ename : String
  is_request_exception : Bool
  etext : String
deriving DecidableEq, Repr

/-- A pandas DataFrame, shallowly: the ordered list of column labels, and the
rows, each row an association list from column label to cell value. -/
structure DataFrame where
  columns : List String
  rows : List (List (String × JVal))
deriving DecidableEq, Repr

/-- Python's default `str.strip()` whitespace test, restricted to the ASCII
whitespace characters (space, tab, newline, carriage return, vertical tab,
form feed). -/
def pyIsSpace (c : Char) : Bool :=
  c == ' ' || c == '\t' || c == '\n' || c == '\r' || c == '\u000B' || c == '\u000C'

/-- Drop the longest suffix of `l` all of whose characters satisfy `p`
(the list form of Python's `str.rstrip`). -/
def dropTrailing (p : Char → Bool) (l : List Char) : List Char :=
  (l.reverse.dropWhile p).reverse

/-- Python `str.strip()` on a character list: drop leading and trailing
whitespace. -/
def pyStripL (l : List Char) : List Char :=
  dropTrailing pyIsSpace (l.dropWhile pyIsSpace)

/-- Python `str.strip()`. -/
def pyStrip (s : String) : String := ⟨pyStripL s.data⟩

/-- Test for the slash character, the argument of `rstrip("/")`. -/
def isSlash (c : Char) : Bool := c == '/'

/-- Python `str.rstrip("/")`. -/
def pyRstripSlash (s : String) : String := ⟨dropTrailing isSlash s.data⟩

/-- Python `html.escape(s)` with the default `quote=True`: replaces
`&`, `<`, `>`, the double quote and the single quote by HTML entities.
(`html.escape` performs sequential `str.replace` passes starting with `&`,
which is equivalent to this single character-wise pass.) -/
def html_escape_char (c : Char) : String :=
  if c = '&' then "&amp;"
  else if c = '<' then "&lt;"
  else if c = '>' then "&gt;"
  else if c = Char.ofNat 34 then "&quot;"
  else if c = Char.ofNat 39 then "&#x27;"
  else String.singleton c

/-- Python `html.escape` with `quote=True`. -/
def html_escape (s : String) : String :=
  String.join (s.data.map html_escape_char)

/-- The `HTTPError` raised by `Response.raise_for_status()` for a 4xx/5xx
status.  `requests` formats its text from the status code, a reason phrase
and the URL; the embedding records the status code and URL.  `HTTPError`
inherits from `RequestException`. -/
def http_error (status : Nat) (url : String) : Exn :=
  ⟨"HTTPError", true, toString status ++ " Error for url: " ++ url⟩

/-- The `requests.exceptions.JSONDecodeError` raised by `Response.json()` on
a body that is not valid JSON.  Since requests 2.27 it inherits from
`RequestException`. -/
def json_decode_error : Exn :=
  ⟨"JSONDecodeError", true, "Expecting value: line 1 column 1 (char 0)"⟩

/-- Semantics of `r = requests.post(url, ...); r.raise_for_status(); r.json()`
given the outcome `o` of the POST: a raised library exception propagates
(every exception `requests` raises is a `RequestException`);
`raise_for_status` raises `HTTPError` for status >= 400; `json()` raises
`JSONDecodeError` on an invalid body; otherwise the decoded body is
returned. -/
def requests_post_result (o : PostOutcome) (url : String) : Except Exn PredictData :=
  match o with
  | .exn ename etext => .error ⟨ename, true, etext⟩
  | .resp status body =>
    if 400 ≤ status then .error (http_error status url)
    else
      match body with
      | some d => .ok d
      | none => .error json_decode_error

/-- Models Python `float(v)` applied to a JSON value, under
`try/except` returning `none` when the conversion raises: succeeds exactly
on JSON numbers (string-to-float coercion is not exercised by the apps'
data, which comes from decoded JSON). -/
def pyFloatOpt : JVal → Option Int
  | .num n => some n
  | _ => none

/-- `s` contains `x` as a contiguous substring (stated over the character
lists). -/
def contains_str (s x : String) : Prop :=
  ∃ a b : List Char, s.data = a ++ x.data ++ b

/-- `l` does not end in a character satisfying `p` (true for the empty
list). -/
def no_trailing (p : Char → Bool) (l : List Char) : Bool :=
  match l.getLast? with
  | none => true
  | some c => !(p c)

/-- `l` does not start with a character satisfying `p` (true for the empty
list). -/
def no_leading (p : Char → Bool) (l : List Char) : Bool :=
  match l.head? with
  | none => true
  | some c => !(p c)

/-- A failing POST outcome in the sense of claims C1 and C5: the request
raised (network error, timeout, invalid URL, ...) or it completed with an
HTTP error status (>= 400, which `raise_for_status` turns into
`HTTPError`). -/
def failing_post (o : PostOutcome) : Prop :=
  (∃ en et, o = .exn en et) ∨ (∃ s b, o = .resp s b ∧ 400 ≤ s)

namespace AppGradio

/-- `src/app_gradio.py`, `_norm_base`: `(url or "").strip().rstrip("/")`.
On a string argument `url or ""` is the identity (`"" or ""` is `""`);
`None` is treated as the empty string. -/
def _norm_base (url : String) : String :=
  pyRstripSlash (pyStrip url)

/-- `src/app_gradio.py`, `ping`: GET `{base}/health` with the normalized
base; empty base short-circuits; HTTP 200 means connected; any other status
or any exception is negative.  `h` is the health oracle giving the outcome
of the GET request by URL. -/
def ping (h : String → HealthOutcome) (api_base : String) : Bool × String :=
  let api_base := _norm_base api_base
  if api_base = "" then (false, "URL vide")
  else
    match h (api_base ++ "/health") with
    | .resp s =>
      if s = 200 then (true, "Connecté")
      else (false, "Réponse backend: " ++ toString s)
    | .exn en => (false, "Indisponible (" ++ en ++ ")")

/-- The POST request `src/app_gradio.py`'s `post_predict` issues: URL
`{normalized base}/predict`, JSON body `{"text": text, "top_k": int(top_k)}`
(`top_k` is already an integer in the embedding, so `int` is the
identity). -/
def predict_request (api_base text : String) (top_k : Int) : PredictRequest :=
  ⟨_norm_base api_base ++ "/predict", text, top_k⟩

/-- `src/app_gradio.py`, `post_predict`: issue the POST and run
`raise_for_status` plus JSON decoding on its outcome.  `net` is the predict
oracle giving the outcome of the POST request. -/
def post_predict (net : PredictRequest → PostOutcome) (api_base text : String)
    (top_k : Int) : Except Exn PredictData :=
  let req := predict_request api_base text top_k
  requests_post_result (net req) req.url

/-- `src/app_gradio.py`, `tags_html`. -/
def tags_html (items : List String) (variant : String) : String :=
  if items.isEmpty then "<span class='muted'>—</span>"
  else
    let cls := if variant = "tag" then "tag" else "tag tag2"
    let safe := items.map html_escape
    "<div class='tags'>"
      ++ String.join (safe.map (fun x => "<span class='" ++ cls ++ "'>" ++ x ++ "</span>"))
      ++ "</div>"

/-- `src/app_gradio.py`, `status_badge`. -/
def status_badge (ok : Bool) (msg : String) : String :=
  let dot := if ok then "dot-ok" else "dot-bad"
  let safe_msg := html_escape msg
  "\n    <div class=\"badge\">\n      <span class=\"dot " ++ dot
    ++ "\"></span>\n      <b>Statut</b> : " ++ safe_msg ++ "\n    </div>\n    "

/-- `src/app_gradio.py`, `hero_block`. -/
def hero_block (ok : Bool) (msg : String) (top_k : Int) : String :=
  "\n    <div class=\"hero\">\n      <div class=\"hero-title\">Chatbot Santé — Interface Utilisateur</div>\n      <div class=\"hero-sub\">\n        Salut ! Je suis votre <b>assistant de santé</b>.\n        Décrivez vos symptômes et je vous proposerai une piste probable ainsi que des conseils.\n      </div>\n      <div class=\"badges\">\n        "
    ++ status_badge ok msg
    ++ "\n        <div class=\"badge\"><b>Mode</b> : Chat + Top-" ++ toString top_k
    ++ "</div>\n      </div>\n    </div>\n    "

/-- `src/app_gradio.py`, `build_details_html`.  `now` is the
`datetime.utcnow().isoformat()` string. -/
def build_details_html (data : PredictData) (now : String) : String :=
  let primary := html_escape (data.primary_disease.getD "—")
  let specialist := html_escape (data.specialist.getD "—")
  let found := data.found_symptoms.getD []
  let precautions := data.precautions.getD []
  let typical := data.typical_symptoms.getD []
  let precautions_html :=
    if precautions.isEmpty then "<span class='muted'>—</span>"
    else "<ul>" ++ String.join (precautions.map (fun p => "<li>" ++ html_escape p ++ "</li>")) ++ "</ul>"
  "\n    <div class=\"card\">\n      <div class=\"grid\">\n        <div>\n          <div class=\"k\">Maladie probable</div>\n          <div class=\"v big\">"
    ++ primary
    ++ "</div>\n        </div>\n        <div>\n          <div class=\"k\">Spécialiste conseillé</div>\n          <div class=\"v\">"
    ++ specialist
    ++ "</div>\n        </div>\n      </div>\n\n      <div class=\"section\">\n        <div class=\"k\">Symptômes détectés</div>\n        "
    ++ tags_html found "tag"
    ++ "\n      </div>\n\n      <div class=\"section\">\n        <div class=\"k\">Précautions</div>\n        "
    ++ precautions_html
    ++ "\n      </div>\n\n      <div class=\"section\">\n        <div class=\"k\">Symptômes fréquents</div>\n        "
    ++ tags_html typical "tag2"
    ++ "\n      </div>\n\n      <div class=\"foot muted\">Horodatage: "
    ++ html_escape (now ++ "Z")
    ++ "</div>\n    </div>\n    "

/-- Column labels of `pd.DataFrame(records)` built from a list of JSON
objects: the union of the objects' keys in order of first appearance. -/
def dedup_keep_first : List String → List String
  | [] => []
  | k :: ks => k :: (dedup_keep_first ks).filter (fun x => x != k)

/-- Keys of a record list, first-appearance order, deduplicated (pandas
column inference for a list of dicts). -/
def record_columns (preds : List PredEntry) : List String :=
  dedup_keep_first ((preds.map (fun e => e.fields.map Prod.fst)).flatten)

/-- `df[c] = v`: set column `c` of every row to the scalar `v`, appending the
column label if it is new. -/
def df_set_col (df : DataFrame) (c : String) (v : JVal) : DataFrame :=
  ⟨if df.columns.contains c then df.columns else df.columns ++ [c],
   df.rows.map (fun r => r.filter (fun kv => kv.1 != c) ++ [(c, v)])⟩

/-- `df[cs]`: select the columns `cs` (all present when the apps call it);
a cell missing from a row reads as NaN, modelled by `JVal.null`. -/
def df_select (df : DataFrame) (cs : List String) : DataFrame :=
  ⟨cs, df.rows.map (fun r => cs.map (fun c => (c, (List.lookup c r).getD JVal.null)))⟩

/-- `src/app_gradio.py`, `predictions_to_df`. -/
def predictions_to_df (data : PredictData) : DataFrame :=
  let preds := data.predictions.getD []
  if preds.isEmpty then ⟨["disease", "probability"], []⟩
  else
    let df : DataFrame := ⟨record_columns preds, preds.map (fun e => e.fields)⟩
    let df := if df.columns.contains "disease" then df else df_set_col df "disease" (JVal.str "")
    let df := if df.columns.contains "probability" then df else df_set_col df "probability" JVal.null
    df_select df ["disease", "probability"]

/-- `src/app_gradio.py`, `on_test`: ping and render the hero block and the
status badge. -/
def on_test (h : String → HealthOutcome) (api_url : String) (top_k : Int) :
    String × String :=
  let pr := ping h api_url
  (hero_block pr.1 pr.2 top_k, status_badge pr.1 pr.2)

/-- The seven outputs of `src/app_gradio.py`, `on_clear`. -/
structure ClearResult where
  chatbot : List (String × String)
  history_state : List (String × String)
  last_raw : Option PredictData
  details : String
  table : DataFrame
  hero : String
  status : String
deriving DecidableEq, Repr

/-- `src/app_gradio.py`, `on_clear`: empties the chat, history, raw JSON,
details and table, and re-pings the backend to render a fresh hero block and
status badge.  `h` is the health oracle at the moment of the clear. -/
def on_clear (h : String → HealthOutcome) (api_url : String) (top_k : Int) :
    ClearResult :=
  let pr := ping h api_url
  ⟨[], [], none, "", ⟨["disease", "probability"], []⟩,
   hero_block pr.1 pr.2 top_k, status_badge pr.1 pr.2⟩

/-- The assistant summary `on_send` builds on success (`src/app_gradio.py`
lines 170-174). -/
def bot_msg (data : PredictData) : String :=
  let primary := data.primary_disease.getD "—"
  let found := data.found_symptoms.getD []
  let found_str := if found.isEmpty then "—" else String.intercalate ", " found
  "**Résultat :** " ++ primary ++ ("\n\n**Symptômes détectés :** " ++ found_str)

/-- The error chat message `on_send` builds when the predict call fails
(`src/app_gradio.py` lines 183-188): it interpolates the configured
`api_url` and `str(e)`. -/
def err_msg (api_url etext : String) : String :=
  "Je n’arrive pas à contacter le service de prédiction.\n\n- URL: `"
    ++ api_url
    ++ "`\n- Détail: `"
    ++ etext
    ++ "`\n\nVérifie que le backend tourne et que `/health` répond."

/-- The six outputs of `src/app_gradio.py`, `on_send`. -/
structure SendResult where
  textbox : String
  chatbot : List (String × String)
  history_state : List (String × String)
  last_raw : Option PredictData
  details : String
  table : DataFrame
deriving DecidableEq, Repr

/-- `src/app_gradio.py`, `on_send`.  The result is `Except Exn SendResult`:
`.error e` would mean the Python exception `e` escapes the handler; the
`except requests.exceptions.RequestException` clause catches exactly the
exceptions with `is_request_exception = true`.  `now` is the wall-clock
isoformat string used by `build_details_html`. -/
def on_send (net : PredictRequest → PostOutcome) (user_text api_url : String)
    (top_k : Int) (now : String) (history : List (String × String)) :
    Except Exn SendResult :=
  let user_text := pyStrip user_text
  if user_text = "" then
    .ok ⟨"", history, history, none, "", ⟨["disease", "probability"], []⟩⟩
  else
    let history := history ++ [(user_text, "…")]
    match post_predict net api_url user_text top_k with
    | .ok data =>
      let m := bot_msg data
      let history := history.dropLast ++ [(user_text, m)]
      .ok ⟨"", history, history, some data, build_details_html data now, predictions_to_df data⟩
    | .error e =>
      if e.is_request_exception then
        let history := history.dropLast ++ [(user_text, err_msg api_url e.etext)]
        .ok ⟨"", history, history, none, "", ⟨["disease", "probability"], []⟩⟩
      else
        .error e

end AppGradio

namespace AppStreamlit

/-- `src/app_streamlit.py`, `ping`: GET `{api_base}/health` on the raw,
un-normalized base; HTTP 200 is positive; any other status or any exception
is negative.  `h` is the health oracle giving the outcome of the GET request
by URL. -/
def ping (h : String → HealthOutcome) (api_base : String) : Bool × String :=
  match h (api_base ++ "/health") with
  | .resp s =>
    if s = 200 then (true, "Connecté")
    else (false, "Réponse backend: " ++ toString s)
  | .exn en => (false, "Indisponible (" ++ en ++ ")")

/-- The POST request `src/app_streamlit.py`'s `post_predict` issues: URL
`{api_base}/predict` (raw base), JSON body `{"text": text, "top_k": top_k}`. -/
def predict_request (api_base text : String) (top_k : Int) : PredictRequest :=
  ⟨api_base ++ "/predict", text, top_k⟩

/-- `src/app_streamlit.py`, `post_predict`. -/
def post_predict (net : PredictRequest → PostOutcome) (api_base text : String)
    (top_k : Int) : Except Exn PredictData :=
  let req := predict_request api_base text top_k
  requests_post_result (net req) req.url

/-- `src/app_streamlit.py`, `format_assistant_summary`. -/
def format_assistant_summary (data : PredictData) : String :=
  let primary := data.primary_disease.getD "—"
  let found := data.found_symptoms.getD []
  let found_str := if found.isEmpty then "—" else String.intercalate ", " found
  "**Résultat :** " ++ primary ++ ("\n\n**Symptômes détectés :** " ++ found_str)

/-- The `details` dict attached to a successful assistant message
(`src/app_streamlit.py` lines 301-310). -/
structure Details where
  primary_disease : String
  found_symptoms : List String
  predictions : List PredEntry
  specialist : String
  precautions : List String
  typical_symptoms : List String
  confidence : Option Int
  timestamp : String
deriving DecidableEq, Repr

/-- One entry of `st.session_state.messages`: a role, a markdown content
string, and the optional `details` dict. -/
structure Message where
  role : String
  content : String
  details : Option Details
deriving DecidableEq, Repr

/-- The Streamlit session state the claims touch: the `messages` and
`last_raw` keys, each possibly absent (`none`). -/
structure SessionState where
  messages : Option (List Message)
  last_raw : Option PredictData
deriving DecidableEq, Repr

/-- `src/app_streamlit.py` lines 142-145, the clear button handler:
`st.session_state.pop("messages", None); st.session_state.pop("last_raw", None)`
(the subsequent `st.rerun()` replays the script, which re-seeds `messages`
with the greeting). -/
def clear_handler (_s : SessionState) : SessionState :=
  ⟨none, none⟩

/-- The error chat message the chat-input handler appends when the predict
call fails (`src/app_streamlit.py` lines 320-325): it interpolates the
configured `api_url` and `str(e)`. -/
def err_msg (api_url etext : String) : String :=
  "Je n’arrive pas à contacter le service de prédiction.\n\n- URL: `"
    ++ api_url
    ++ "`\n- Détail: `"
    ++ etext
    ++ "`\n\nVérifie que le backend tourne et que `/health` répond."

/-- `src/app_streamlit.py` lines 284-328, the chat-input handler, run when
`st.chat_input` returns a (necessarily nonempty) `user_text`.  It appends
the user message, calls `post_predict`, and on success appends the assistant
summary with its details dict and stores the raw response; a
`RequestException` is converted into a single assistant error message and
`last_raw` is left unchanged.  The result is the new
`(messages, last_raw)` pair; `.error e` would mean the exception `e`
escapes the handler. -/
def chat_handler (net : PredictRequest → PostOutcome) (api_url user_text : String)
    (top_k : Int) (now : String) (messages : List Message)
    (last_raw : Option PredictData) :
    Except Exn (List Message × Option PredictData) :=
  let messages := messages ++ [⟨"user", user_text, none⟩]
  match post_predict net api_url user_text top_k with
  | .ok data =>
    let preds := data.predictions.getD []
    let confidence :=
      match preds with
      | [] => none
      | e0 :: _ =>
        match List.lookup "probability" e0.fields with
        | some v => pyFloatOpt v
        | none => none
    let details : Details :=
      ⟨data.primary_disease.getD "—", data.found_symptoms.getD [], preds,
       data.specialist.getD "—", data.precautions.getD [],
       data.typical_symptoms.getD [], confidence, now ++ "Z"⟩
    .ok (messages ++ [⟨"assistant", format_assistant_summary data, some details⟩], some data)
  | .error e =>
    if e.is_request_exception then
      .ok (messages ++ [⟨"assistant", err_msg api_url e.etext, none⟩], last_raw)
    else
      .error e

end AppStreamlit

/-! ## Helper lemmas -/

theorem contains_str_of (a x b : String) : contains_str (a ++ x ++ b) x :=
  ⟨a.data, b.data, by simp [String.data_append, List.append_assoc]⟩

theorem contains_str_end (a x b y : String) : contains_str (a ++ x ++ (b ++ y)) y :=
  ⟨(a ++ x ++ b).data, [], by simp [String.data_append, List.append_assoc]⟩

theorem contains_str_mid5_fst (a x b y c : String) :
    contains_str (a ++ x ++ b ++ y ++ c) x :=
  ⟨a.data, (b ++ y ++ c).data, by simp [String.data_append, List.append_assoc]⟩

theorem contains_str_mid5_snd (a x b y c : String) :
    contains_str (a ++ x ++ b ++ y ++ c) y :=
  ⟨(a ++ x ++ b).data, c.data, by simp [String.data_append, List.append_assoc]⟩

theorem requests_post_result_error_is_request (o : PostOutcome) (url : String)
    (e : Exn) (h : requests_post_result o url = .error e) :
    e.is_request_exception = true := by
  cases o with
  | exn en et =>
    simp only [requests_post_result, Except.error.injEq] at h
    rw [← h]
  | resp s body =>
    simp only [requests_post_result] at h
    by_cases hs : 400 ≤ s
    · rw [if_pos hs] at h
      simp only [Except.error.injEq] at h
      rw [← h]
      rfl
    · rw [if_neg hs] at h
      cases body with
      | some d => simp at h
      | none =>
        simp only [Except.error.injEq] at h
        rw [← h]
        rfl

theorem gradio_post_error_is_request (net : PredictRequest → PostOutcome)
    (b t : String) (k : Int) (e : Exn)
    (h : AppGradio.post_predict net b t k = .error e) :
    e.is_request_exception = true := by
  simp only [AppGradio.post_predict] at h
  exact requests_post_result_error_is_request _ _ _ h

theorem streamlit_post_error_is_request (net : PredictRequest → PostOutcome)
    (b t : String) (k : Int) (e : Exn)
    (h : AppStreamlit.post_predict net b t k = .error e) :
    e.is_request_exception = true := by
  simp only [AppStreamlit.post_predict] at h
  exact requests_post_result_error_is_request _ _ _ h

theorem requests_post_result_of_failing (o : PostOutcome) (url : String)
    (h : failing_post o) :
    ∃ e : Exn, requests_post_result o url = .error e := by
  rcases h with ⟨en, et, rfl⟩ | ⟨s, b, rfl, hs⟩
  · exact ⟨_, rfl⟩
  · refine ⟨http_error s url, ?_⟩
    simp only [requests_post_result]
    rw [if_pos hs]

/-! ## Claim theorems -/

/-- Claim C2: the health check is positive exactly when the GET
`{base_url}/health` request is actually issued and completes with HTTP 200;
any other status or any raised exception (and, for the Gradio app, an empty
normalized base, for which no request is issued at all) yields a negative
status.  The Gradio app issues the request to the normalized base, the
Streamlit app to the raw base. -/
theorem c2_ping_positive_iff_http_200 (h : String → HealthOutcome) (b : String) :
    ((AppGradio.ping h b).1 = true ↔
      (AppGradio._norm_base b ≠ "" ∧
        h (AppGradio._norm_base b ++ "/health") = HealthOutcome.resp 200)) ∧
    ((AppStreamlit.ping h b).1 = true ↔
      h (b ++ "/health") = HealthOutcome.resp 200) := by
  constructor
  · simp only [AppGradio.ping]
    by_cases hb : AppGradio._norm_base b = ""
    · simp [hb]
    · rw [if_neg hb]
      cases hh : h (AppGradio._norm_base b ++ "/health") with
      | resp s =>
        by_cases hs : s = 200
        · subst hs
          simp [hb]
        · simp [hs]
      | exn en => simp
  · simp only [AppStreamlit.ping]
    cases hh : h (b ++ "/health") with
    | resp s =>
      by_cases hs : s = 200
      · subst hs
        simp
      · simp [hs]
    | exn en => simp

/-- Claim C9: whatever the `/predict` response dictionary holds (no
`predictions` key, an empty list, entries missing `disease` or
`probability`, entries with extra keys), `predictions_to_df` returns a
DataFrame whose columns are exactly `["disease", "probability"]` in that
order. -/
theorem c9_predictions_df_columns (data : PredictData) :
    (AppGradio.predictions_to_df data).columns = ["disease", "probability"] := by
  simp only [AppGradio.predictions_to_df]
  split
  · rfl
  · rfl

/-- Claim C4, counterexample: the status indicator shown after a clear is
not the one shown before the clear.  `on_clear` calls `ping` again, so when
the backend answers HTTP 200 at the earlier `on_test` but raises
`ConnectionError` at the clear-time ping, the badge changes from
"Connecté" to "Indisponible (ConnectionError)".  The claim's parenthetical
("the status is preserved, not recomputed to a possibly different value")
is therefore false of the code. -/
theorem c4_clear_recomputes_status_cex :
    (AppGradio.on_test (fun _ => HealthOutcome.resp 200) "http://localhost:8000" 3).2 ≠
      (AppGradio.on_clear (fun _ => HealthOutcome.exn "ConnectionError")
        "http://localhost:8000" 3).status := by
  decide

/-- Claim C4, amended: clearing resets the Gradio chat transcript and
history to `[]`, the last-raw-response to `None`, the details pane to the
empty string and the table to an empty disease/probability DataFrame, and it
re-pings the backend: the status indicator shown after the clear is the
badge of a fresh health check performed at clear time (which may differ from
the one shown before).  The Streamlit clear handler removes the `messages`
and `last_raw` session keys (the status on the following rerun likewise
comes from a fresh ping). -/
theorem c4_clear_resets_and_repings (h : String → HealthOutcome) (u : String) (k : Int) :
    AppGradio.on_clear h u k =
      ⟨[], [], none, "", ⟨["disease", "probability"], []⟩,
       AppGradio.hero_block (AppGradio.ping h u).1 (AppGradio.ping h u).2 k,
       AppGradio.status_badge (AppGradio.ping h u).1 (AppGradio.ping h u).2⟩ ∧
    ∀ s : AppStreamlit.SessionState,
      AppStreamlit.clear_handler s = ⟨none, none⟩ :=
  ⟨rfl, fun _ => rfl⟩

/-- Claim C8, counterexample: the two front-ends' health checks are not
equivalent for every `api_base`.  On the empty string the Gradio `ping`
short-circuits to `(False, "URL vide")` without issuing a request, while the
Streamlit `ping` issues `GET "/health"`, which `requests` rejects with
`MissingSchema`, giving `(False, "Indisponible (MissingSchema)")`: the
`(ok, message)` pairs differ. -/
theorem c8_pings_differ_cex :
    AppGradio.ping (fun _ => HealthOutcome.exn "MissingSchema") "" ≠
      AppStreamlit.ping (fun _ => HealthOutcome.exn "MissingSchema") "" := by
  decide

/-- Claim C8, amended: the two health checks agree whenever the configured
`api_base` is nonempty and already normalized (no surrounding whitespace and
no trailing slash, i.e. `_norm_base` fixes it): against any identical
backend behavior they then return the same `(ok, message)` pair.  For empty
strings or URLs with trailing slashes the two apps query different URLs (or
none at all) and can disagree. -/
theorem c8_pings_agree_on_normalized_base (h : String → HealthOutcome)
    (b : String) (hnorm : AppGradio._norm_base b = b) (hne : b ≠ "") :
    AppGradio.ping h b = AppStreamlit.ping h b := by
  simp only [AppGradio.ping, AppStreamlit.ping, hnorm]
  rw [if_neg hne]

theorem dropWhile_head_not (p : Char → Bool) :
    ∀ (l : List Char) (c : Char),
      (List.dropWhile p l).head? = some c → p c = false := by
  intro l
  induction l with
  | nil => intro c hc; simp at hc
  | cons a t ih =>
    intro c hc
    rw [List.dropWhile_cons] at hc
    split at hc
    · exact ih c hc
    · rename_i hp
      rw [List.head?_cons, Option.some.injEq] at hc
      rw [← hc]
      simpa using hp

theorem dropWhile_eq_self_of_head_not (p : Char → Bool) (l : List Char)
    (h : ∀ c, l.head? = some c → p c = false) : List.dropWhile p l = l := by
  cases l with
  | nil => rfl
  | cons a t =>
    rw [List.dropWhile_cons]
    simp [h a rfl]

theorem dropWhile_suffix_ex (p : Char → Bool) :
    ∀ l : List Char, ∃ t, l = t ++ List.dropWhile p l := by
  intro l
  induction l with
  | nil => exact ⟨[], rfl⟩
  | cons a t ih =>
    rw [List.dropWhile_cons]
    split
    · obtain ⟨u, hu⟩ := ih
      exact ⟨a :: u, by rw [List.cons_append, ← hu]⟩
    · exact ⟨[], rfl⟩

theorem getLast_dropTrailing_not (p : Char → Bool) (l : List Char) (c : Char)
    (h : (dropTrailing p l).getLast? = some c) : p c = false := by
  unfold dropTrailing at h
  rw [List.getLast?_reverse] at h
  exact dropWhile_head_not p _ c h

theorem dropTrailing_eq_self (p : Char → Bool) (l : List Char)
    (h : ∀ c, l.getLast? = some c → p c = false) : dropTrailing p l = l := by
  unfold dropTrailing
  have h2 : List.dropWhile p l.reverse = l.reverse := by
    apply dropWhile_eq_self_of_head_not
    intro c hc
    rw [List.head?_reverse] at hc
    exact h c hc
  rw [h2, List.reverse_reverse]

theorem head_dropTrailing (p : Char → Bool) (l : List Char) (c : Char)
    (h : (dropTrailing p l).head? = some c) : l.head? = some c := by
  obtain ⟨t, ht⟩ := dropWhile_suffix_ex p l.reverse
  have hl : l = dropTrailing p l ++ t.reverse := by
    unfold dropTrailing
    calc l = l.reverse.reverse := (List.reverse_reverse l).symm
    _ = (t ++ List.dropWhile p l.reverse).reverse := by rw [← ht]
    _ = (List.dropWhile p l.reverse).reverse ++ t.reverse := by
          rw [List.reverse_append]
  cases hx : dropTrailing p l with
  | nil => rw [hx] at h; simp at h
  | cons a u =>
    rw [hx] at h
    rw [List.head?_cons, Option.some.injEq] at h
    rw [hl, hx, List.cons_append, List.head?_cons, h]

theorem no_trailing_iff (p : Char → Bool) (l : List Char) :
    no_trailing p l = true ↔ ∀ c, l.getLast? = some c → p c = false := by
  unfold no_trailing
  cases h : l.getLast? with
  | none => simp
  | some c => simp

theorem no_leading_iff (p : Char → Bool) (l : List Char) :
    no_leading p l = true ↔ ∀ c, l.head? = some c → p c = false := by
  unfold no_leading
  cases h : l.head? with
  | none => simp
  | some c => simp

/-- Claim C10, counterexample: `_norm_base` is not idempotent.  On
`"http://x /"` the `strip()` pass removes nothing (the string ends in a
slash, not whitespace), then `rstrip("/")` exposes the inner space:
the result is `"http://x "`, which still carries trailing whitespace, and a
second application strips it further to `"http://x"`. -/
theorem c10_norm_base_not_idempotent_cex :
    AppGradio._norm_base (AppGradio._norm_base "http://x /") ≠
      AppGradio._norm_base "http://x /" := by
  decide

/-- Claim C10, amended: the result of `_norm_base` never ends with a slash
and never starts with whitespace, and `_norm_base` is idempotent on every
input whose result does not end in whitespace (equivalently, whenever
stripping trailing slashes does not expose trailing whitespace); inputs
such as `"http://x /"` leave trailing whitespace, where a second
application strips further. -/
theorem c10_norm_base_normalization (url : String) :
    no_trailing isSlash (AppGradio._norm_base url).data = true ∧
    no_leading pyIsSpace (AppGradio._norm_base url).data = true ∧
    (no_trailing pyIsSpace (AppGradio._norm_base url).data = true →
      AppGradio._norm_base (AppGradio._norm_base url) = AppGradio._norm_base url) := by
  have hdata : (AppGradio._norm_base url).data
      = dropTrailing isSlash (pyStripL url.data) := rfl
  have hslash : ∀ c, (AppGradio._norm_base url).data.getLast? = some c →
      isSlash c = false := by
    intro c hc
    rw [hdata] at hc
    exact getLast_dropTrailing_not _ _ _ hc
  have hhead : ∀ c, (AppGradio._norm_base url).data.head? = some c →
      pyIsSpace c = false := by
    intro c hc
    rw [hdata] at hc
    have h1 := head_dropTrailing _ _ _ hc
    unfold pyStripL at h1
    have h2 := head_dropTrailing _ _ _ h1
    exact dropWhile_head_not _ _ _ h2
  refine ⟨(no_trailing_iff _ _).mpr hslash, (no_leading_iff _ _).mpr hhead, ?_⟩
  intro hws
  have hws' := (no_trailing_iff _ _).mp hws
  apply String.ext
  show dropTrailing isSlash (pyStripL (AppGradio._norm_base url).data)
      = (AppGradio._norm_base url).data
  unfold pyStripL
  rw [dropWhile_eq_self_of_head_not pyIsSpace _ hhead,
      dropTrailing_eq_self pyIsSpace _ hws',
      dropTrailing_eq_self isSlash _ hslash]

theorem c10_norm_base_normalization_witness :
    AppGradio._norm_base (AppGradio._norm_base "http://localhost:8000/") =
      AppGradio._norm_base "http://localhost:8000/" :=
  (c10_norm_base_normalization "http://localhost:8000/").2.2 (by decide)

theorem c8_pings_agree_on_normalized_base_witness :
    AppGradio.ping (fun _ => HealthOutcome.resp 200) "http://localhost:8000" =
      AppStreamlit.ping (fun _ => HealthOutcome.resp 200) "http://localhost:8000" :=
  c8_pings_agree_on_normalized_base _ _ (by decide) (by decide)

/-- Claim C3: the assistant summary contains the `primary_disease` value and
the `found_symptoms` joined with ", " (the em-dash placeholder when the list
is empty or absent); the Gradio `on_send` success message is the very same
string as the Streamlit `format_assistant_summary`. -/
theorem c3_summary_mentions_primary_and_symptoms (data : PredictData) :
    AppGradio.bot_msg data = AppStreamlit.format_assistant_summary data ∧
    (∀ p, data.primary_disease = some p →
      contains_str (AppStreamlit.format_assistant_summary data) p) ∧
    (∀ fs, data.found_symptoms = some fs → fs.isEmpty = false →
      contains_str (AppStreamlit.format_assistant_summary data)
        (String.intercalate ", " fs)) ∧
    ((data.found_symptoms.getD []).isEmpty = true →
      contains_str (AppStreamlit.format_assistant_summary data) "—") := by
  refine ⟨rfl, ?_, ?_, ?_⟩
  · intro p hp
    simp only [AppStreamlit.format_assistant_summary, hp, Option.getD_some]
    exact contains_str_of _ _ _
  · intro fs hfs hne
    simp only [AppStreamlit.format_assistant_summary, hfs, Option.getD_some, hne,
      Bool.false_eq_true, if_false]
    exact contains_str_end _ _ _ _
  · intro hempty
    simp only [AppStreamlit.format_assistant_summary, hempty, if_true]
    exact contains_str_end _ _ _ _

theorem c3_summary_witness :
    contains_str (AppStreamlit.format_assistant_summary
      ⟨some "Flu", some ["cough", "fever"], none, none, none, none⟩) "Flu" ∧
    contains_str (AppStreamlit.format_assistant_summary
      ⟨some "Flu", some ["cough", "fever"], none, none, none, none⟩)
      (String.intercalate ", " ["cough", "fever"]) ∧
    contains_str (AppStreamlit.format_assistant_summary
      ⟨some "Cold", none, none, none, none, none⟩) "—" :=
  ⟨(c3_summary_mentions_primary_and_symptoms _).2.1 "Flu" rfl,
   (c3_summary_mentions_primary_and_symptoms _).2.2.1 ["cough", "fever"] rfl rfl,
   (c3_summary_mentions_primary_and_symptoms _).2.2.2 rfl⟩

/-- Claim C1: when the POST to `/predict` fails (raised exception or HTTP
error status), each front-end's send handler returns normally (`.ok`) with
exactly one assistant-role error message appended to the prior
conversation; that message contains the configured backend URL and the
underlying error's text.  (Gradio strips the user text and requires it to
be nonempty, else no request is made; Streamlit's `st.chat_input` only
fires on nonempty input.) -/
theorem c1_predict_failure_appends_single_error
    (net : PredictRequest → PostOutcome) (user_text api_url : String)
    (top_k : Int) (now : String) (history : List (String × String))
    (messages : List AppStreamlit.Message) (last_raw : Option PredictData)
    (hu : pyStrip user_text ≠ "")
    (hg : failing_post (net (AppGradio.predict_request api_url (pyStrip user_text) top_k)))
    (hs : failing_post (net (AppStreamlit.predict_request api_url user_text top_k))) :
    (∃ et, AppGradio.on_send net user_text api_url top_k now history =
        .ok ⟨"", history ++ [(pyStrip user_text, AppGradio.err_msg api_url et)],
             history ++ [(pyStrip user_text, AppGradio.err_msg api_url et)],
             none, "", ⟨["disease", "probability"], []⟩⟩ ∧
      contains_str (AppGradio.err_msg api_url et) api_url ∧
      contains_str (AppGradio.err_msg api_url et) et) ∧
    (∃ et, AppStreamlit.chat_handler net api_url user_text top_k now messages last_raw =
        .ok (messages ++ [⟨"user", user_text, none⟩,
              ⟨"assistant", AppStreamlit.err_msg api_url et, none⟩], last_raw) ∧
      contains_str (AppStreamlit.err_msg api_url et) api_url ∧
      contains_str (AppStreamlit.err_msg api_url et) et) := by
  constructor
  · obtain ⟨e, he⟩ : ∃ e, AppGradio.post_predict net api_url (pyStrip user_text) top_k
        = .error e := by
      simpa [AppGradio.post_predict] using
        requests_post_result_of_failing _
          (AppGradio.predict_request api_url (pyStrip user_text) top_k).url hg
    have hre := gradio_post_error_is_request _ _ _ _ _ he
    refine ⟨e.etext, ?_, ?_, ?_⟩
    · simp only [AppGradio.on_send]
      rw [if_neg hu, he]
      simp only [hre, if_true, List.dropLast_concat]
    · simp only [AppGradio.err_msg]
      exact contains_str_mid5_fst _ _ _ _ _
    · simp only [AppGradio.err_msg]
      exact contains_str_mid5_snd _ _ _ _ _
  · obtain ⟨e, he⟩ : ∃ e, AppStreamlit.post_predict net api_url user_text top_k
        = .error e := by
      simpa [AppStreamlit.post_predict] using
        requests_post_result_of_failing _
          (AppStreamlit.predict_request api_url user_text top_k).url hs
    have hre := streamlit_post_error_is_request _ _ _ _ _ he
    refine ⟨e.etext, ?_, ?_, ?_⟩
    · simp only [AppStreamlit.chat_handler]
      rw [he]
      simp only [hre, if_true, List.append_assoc, List.cons_append, List.nil_append]
    · simp only [AppStreamlit.err_msg]
      exact contains_str_mid5_fst _ _ _ _ _
    · simp only [AppStreamlit.err_msg]
      exact contains_str_mid5_snd _ _ _ _ _

theorem c1_predict_failure_witness :
    (∃ et, AppGradio.on_send (fun _ => PostOutcome.exn "ConnectionError" "Connection refused")
        "fièvre" "http://localhost:8000" 3 "" [] =
        .ok ⟨"", [] ++ [("fièvre", AppGradio.err_msg "http://localhost:8000" et)],
             [] ++ [("fièvre", AppGradio.err_msg "http://localhost:8000" et)],
             none, "", ⟨["disease", "probability"], []⟩⟩ ∧
      contains_str (AppGradio.err_msg "http://localhost:8000" et) "http://localhost:8000" ∧
      contains_str (AppGradio.err_msg "http://localhost:8000" et) et) ∧
    (∃ et, AppStreamlit.chat_handler (fun _ => PostOutcome.exn "ConnectionError" "Connection refused")
        "http://localhost:8000" "fièvre" 3 "" [] none =
        .ok ([] ++ [⟨"user", "fièvre", none⟩,
              ⟨"assistant", AppStreamlit.err_msg "http://localhost:8000" et, none⟩], none) ∧
      contains_str (AppStreamlit.err_msg "http://localhost:8000" et) "http://localhost:8000" ∧
      contains_str (AppStreamlit.err_msg "http://localhost:8000" et) et) :=
  c1_predict_failure_appends_single_error _ "fièvre" "http://localhost:8000" 3 "" [] [] none
    (by decide) (Or.inl ⟨_, _, rfl⟩) (Or.inl ⟨_, _, rfl⟩)

/-- Claim C5: on any failing `/predict` call the error path only appends to
the conversation: the new history is the old history followed by a tail (in
Gradio, the single user/error pair that replaced the optimistic `"…"`
placeholder; in Streamlit, the user message plus the assistant error
message), so every entry that existed before the send is still present,
unchanged and in place. -/
theorem c5_error_path_preserves_history
    (net : PredictRequest → PostOutcome) (user_text api_url : String)
    (top_k : Int) (now : String) (history : List (String × String))
    (messages : List AppStreamlit.Message) (last_raw : Option PredictData)
    (hu : pyStrip user_text ≠ "") (e e' : Exn)
    (hg : AppGradio.post_predict net api_url (pyStrip user_text) top_k = .error e)
    (hs : AppStreamlit.post_predict net api_url user_text top_k = .error e') :
    (∃ tail, AppGradio.on_send net user_text api_url top_k now history =
        .ok ⟨"", history ++ tail, history ++ tail, none, "",
             ⟨["disease", "probability"], []⟩⟩) ∧
    (∃ tail, AppStreamlit.chat_handler net api_url user_text top_k now messages last_raw
        = .ok (messages ++ tail, last_raw)) := by
  constructor
  · have hre := gradio_post_error_is_request _ _ _ _ _ hg
    refine ⟨[(pyStrip user_text, AppGradio.err_msg api_url e.etext)], ?_⟩
    simp only [AppGradio.on_send]
    rw [if_neg hu, hg]
    simp only [hre, if_true, List.dropLast_concat]
  · have hre := streamlit_post_error_is_request _ _ _ _ _ hs
    refine ⟨[⟨"user", user_text, none⟩,
             ⟨"assistant", AppStreamlit.err_msg api_url e'.etext, none⟩], ?_⟩
    simp only [AppStreamlit.chat_handler]
    rw [hs]
    simp only [hre, if_true, List.append_assoc, List.cons_append, List.nil_append]

theorem c5_error_path_preserves_history_witness :
    (∃ tail, AppGradio.on_send (fun _ => PostOutcome.exn "Timeout" "timed out")
        "toux" "http://localhost:8000" 3 ""
        [("bonjour", "Salut !")] =
        .ok ⟨"", [("bonjour", "Salut !")] ++ tail, [("bonjour", "Salut !")] ++ tail,
             none, "", ⟨["disease", "probability"], []⟩⟩) ∧
    (∃ tail, AppStreamlit.chat_handler (fun _ => PostOutcome.exn "Timeout" "timed out")
        "http://localhost:8000" "toux" 3 "" [⟨"assistant", "Salut !", none⟩] none
        = .ok ([⟨"assistant", "Salut !", none⟩] ++ tail, none)) :=
  c5_error_path_preserves_history _ "toux" "http://localhost:8000" 3 ""
    [("bonjour", "Salut !")] [⟨"assistant", "Salut !", none⟩] none
    (by decide) ⟨"Timeout", true, "timed out"⟩ ⟨"Timeout", true, "timed out"⟩ rfl rfl

/-- Claim C6: whatever the outcome of the POST to `/predict` (completed with
any status, body not valid JSON, or a raised `requests` exception — all of
which are `RequestException`s, including since requests 2.27 the JSON
decoding error), neither send handler lets an exception escape: both always
return `.ok`, and a failing `post_predict` is converted into a single
chat-style error message. -/
theorem c6_no_raw_exception_escapes
    (net : PredictRequest → PostOutcome) (user_text api_url : String)
    (top_k : Int) (now : String) (history : List (String × String))
    (messages : List AppStreamlit.Message) (last_raw : Option PredictData) :
    (∃ r, AppGradio.on_send net user_text api_url top_k now history = .ok r) ∧
    (∃ r, AppStreamlit.chat_handler net api_url user_text top_k now messages last_raw
        = .ok r) ∧
    (∀ e : Exn, pyStrip user_text ≠ "" →
      AppGradio.post_predict net api_url (pyStrip user_text) top_k = .error e →
      AppGradio.on_send net user_text api_url top_k now history =
        .ok ⟨"", history ++ [(pyStrip user_text, AppGradio.err_msg api_url e.etext)],
             history ++ [(pyStrip user_text, AppGradio.err_msg api_url e.etext)],
             none, "", ⟨["disease", "probability"], []⟩⟩) ∧
    (∀ e : Exn, AppStreamlit.post_predict net api_url user_text top_k = .error e →
      AppStreamlit.chat_handler net api_url user_text top_k now messages last_raw =
        .ok (messages ++ [⟨"user", user_text, none⟩,
             ⟨"assistant", AppStreamlit.err_msg api_url e.etext, none⟩], last_raw)) := by
  refine ⟨?_, ?_, ?_, ?_⟩
  · by_cases hu : pyStrip user_text = ""
    · exact ⟨_, by simp only [AppGradio.on_send]; rw [if_pos hu]⟩
    · cases hp : AppGradio.post_predict net api_url (pyStrip user_text) top_k with
      | ok d =>
        exact ⟨_, by simp only [AppGradio.on_send]; rw [if_neg hu, hp]⟩
      | error e =>
        have hre := gradio_post_error_is_request _ _ _ _ _ hp
        exact ⟨_, by
          simp only [AppGradio.on_send]
          rw [if_neg hu, hp]
          simp only [hre, if_true]
          rfl⟩
  · cases hp : AppStreamlit.post_predict net api_url user_text top_k with
    | ok d =>
      exact ⟨_, by simp only [AppStreamlit.chat_handler]; rw [hp]⟩
    | error e =>
      have hre := streamlit_post_error_is_request _ _ _ _ _ hp
      exact ⟨_, by
        simp only [AppStreamlit.chat_handler]
        rw [hp]
        simp only [hre, if_true]
        rfl⟩
  · intro e hu hp
    have hre := gradio_post_error_is_request _ _ _ _ _ hp
    simp only [AppGradio.on_send]
    rw [if_neg hu, hp]
    simp only [hre, if_true, List.dropLast_concat]
  · intro e hp
    have hre := streamlit_post_error_is_request _ _ _ _ _ hp
    simp only [AppStreamlit.chat_handler]
    rw [hp]
    simp only [hre, if_true, List.append_assoc, List.cons_append, List.nil_append]

theorem c6_no_raw_exception_escapes_witness :
    AppGradio.on_send (fun _ => PostOutcome.resp 200 none)
        "toux" "http://localhost:8000" 3 "" [] =
      .ok ⟨"", [] ++ [("toux", AppGradio.err_msg "http://localhost:8000"
             json_decode_error.etext)],
           [] ++ [("toux", AppGradio.err_msg "http://localhost:8000"
             json_decode_error.etext)],
           none, "", ⟨["disease", "probability"], []⟩⟩ :=
  (c6_no_raw_exception_escapes (fun _ => PostOutcome.resp 200 none)
      "toux" "http://localhost:8000" 3 "" [] [] none).2.2.1
    json_decode_error (by decide) rfl

/-- Claim C7: both `post_predict`s issue a POST whose JSON body is exactly
`{"text": text, "top_k": top_k}` with `top_k` an integer, targeted at
`{base}/predict` (the Gradio app normalizes the configured base first, the
Streamlit app uses it verbatim), and return the decoded JSON body on any
success status. -/
theorem c7_post_predict_request_shape_and_success
    (net : PredictRequest → PostOutcome) (api_base text : String) (top_k : Int) :
    AppGradio.predict_request api_base text top_k =
      ⟨AppGradio._norm_base api_base ++ "/predict", text, top_k⟩ ∧
    AppStreamlit.predict_request api_base text top_k =
      ⟨api_base ++ "/predict", text, top_k⟩ ∧
    (∀ (s : Nat) (d : PredictData),
      net (AppGradio.predict_request api_base text top_k) = .resp s (some d) →
      s < 400 → AppGradio.post_predict net api_base text top_k = .ok d) ∧
    (∀ (s : Nat) (d : PredictData),
      net (AppStreamlit.predict_request api_base text top_k) = .resp s (some d) →
      s < 400 → AppStreamlit.post_predict net api_base text top_k = .ok d) := by
  refine ⟨rfl, rfl, ?_, ?_⟩
  · intro s d hnet hlt
    simp only [AppGradio.post_predict]
    rw [hnet]
    simp only [requests_post_result]
    rw [if_neg (by omega : ¬ 400 ≤ s)]
  · intro s d hnet hlt
    simp only [AppStreamlit.post_predict]
    rw [hnet]
    simp only [requests_post_result]
    rw [if_neg (by omega : ¬ 400 ≤ s)]

theorem c7_post_predict_witness :
    AppGradio.post_predict
        (fun _ => PostOutcome.resp 200
          (some ⟨some "Common Cold", some ["cough"], none, some "Généraliste", none, none⟩))
        "http://localhost:8000" "fièvre, toux" 3 =
      .ok ⟨some "Common Cold", some ["cough"], none, some "Généraliste", none, none⟩ ∧
    AppStreamlit.post_predict
        (fun _ => PostOutcome.resp 200
          (some ⟨some "Common Cold", some ["cough"], none, some "Généraliste", none, none⟩))
        "http://localhost:8000" "fièvre, toux" 3 =
      .ok ⟨some "Common Cold", some ["cough"], none, some "Généraliste", none, none⟩ :=
  ⟨(c7_post_predict_request_shape_and_success _ "http://localhost:8000" "fièvre, toux" 3).2.2.1
      200 _ rfl (by decide),
   (c7_post_predict_request_shape_and_success _ "http://localhost:8000" "fièvre, toux" 3).2.2.2
      200 _ rfl (by decide)⟩

